import Mathlib

/-!
# Verification of `scripts/nap-download-gtfs.js`

A shallow embedding of the conditional-download script: cache store
(`readCache`/`writeCache`), token client (`postToken`), conditional fetch
negotiator (`downloadGtfs`), and the session orchestrator (`runMain`),
together with theorems about the claims of the specification.

JavaScript-specific conventions modelled explicitly:
* `x || y` on strings is falsy-aware: the empty string counts as absent
  (`jsOrS`, `orNull`, `jsTruthyS`).
* object spread `{ ...a, ...b }` lets keys of `b` overwrite keys of `a`,
  including keys whose value is `null`.
* `fetch` network responses, `JSON.parse`, and the file system are external
  effects; they enter the model as explicit inputs (response records, a
  parse oracle, a cache-file state).
-/

/-- JS string truthiness on an optional string: `undefined`/`null` and `""`
are falsy, everything else truthy. -/
def jsTruthyS : Option String → Bool
  | some s => s != ""
  | none => false

/-- JS `v || null` on an optional string: keep a truthy string, collapse a
falsy value to `null` (`none`). Used by `pickHeaders` and
`buildConditionalHeaders`. -/
def orNull : Option String → Option String
  | some s => if s = "" then none else some s
  | none => none

/-- JS `a || b` for strings: `a` when truthy (non-empty), else `b`. -/
def jsOrS (a b : String) : String :=
  if a = "" then b else a

/-- `res.ok` of the Fetch API: status in the range 200–299. -/
def respOk (status : Nat) : Bool :=
  200 ≤ status && status ≤ 299

/-! ## Headers and cache records -/

/-- The raw response headers the script reads (`h.get(k)` returns the header
value, or `none` when the header is absent). Only the five headers the
script ever consults are modelled. -/
structure RawHeaders where
  etag : Option String
  lastModified : Option String
  expires : Option String
  age : Option String
  contentLength : Option String
deriving DecidableEq, Repr

/-- The object produced by `pickHeaders`: always has all five keys, each one
a string or `null`. -/
structure PickedHeaders where
  etag : Option String
  lastModified : Option String
  expires : Option String
  age : Option String
  contentLength : Option String
deriving DecidableEq, Repr

/-- `pickHeaders(h)` of the source: `get(k) || null` for each of the five
cache-relevant headers, so an absent (or empty) header becomes an explicit
`null` value under its key. -/
def pickHeaders (h : RawHeaders) : PickedHeaders :=
  { etag := orNull h.etag
    lastModified := orNull h.lastModified
    expires := orNull h.expires
    age := orNull h.age
    contentLength := orNull h.contentLength }

/-- The persisted cache record (`.nap-cache.json`): the five validator
fields plus the `checkedAt` timestamp, each a string or `null`. -/
structure Cache where
  etag : Option String
  lastModified : Option String
  expires : Option String
  age : Option String
  contentLength : Option String
  checkedAt : Option String
deriving DecidableEq, Repr

/-- The empty record `{}` returned by `readCache` when no usable cache
exists: every field absent. -/
def emptyCache : Cache :=
  { etag := none, lastModified := none, expires := none, age := none
    contentLength := none, checkedAt := none }

/-- The conditional request headers built by `buildConditionalHeaders`:
`If-None-Match` present iff the cached etag is truthy, `If-Modified-Since`
present iff the cached lastModified is truthy. -/
structure CondHeaders where
  ifNoneMatch : Option String
  ifModifiedSince : Option String
deriving DecidableEq, Repr

/-- `buildConditionalHeaders(cache)` of the source. -/
def buildConditionalHeaders (cache : Cache) : CondHeaders :=
  { ifNoneMatch := orNull cache.etag
    ifModifiedSince := orNull cache.lastModified }

/-! ## Cache store -/

/-- The state of the cache file on disk, as seen by `readCache`. -/
inductive CacheFileState where
  | absent
  | unreadable
  | content (s : String)
deriving DecidableEq

/-- Best-effort result of `JSON.parse` on the cache file's text: the parse
may throw, may produce a falsy value (`null`, `false`, …), or may produce a
record. The parser itself is a runtime primitive, so it enters the model as
an oracle `String → JsParseResult`. -/
inductive JsParseResult where
  | throws
  | falsy
  | value (c : Cache)
deriving DecidableEq

/-- `readCache()` of the source: `{}` when the file does not exist; the
`try`/`catch` turns an unreadable file or a `JSON.parse` exception into
`{}`; `JSON.parse(...) || {}` turns a falsy parse into `{}`; otherwise the
parsed record is returned. -/
def readCache (parse : String → JsParseResult) (f : CacheFileState) : Cache :=
  match f with
  | .absent => emptyCache
  | .unreadable => emptyCache
  | .content s =>
    match parse s with
    | .throws => emptyCache
    | .falsy => emptyCache
    | .value c => c

/-- A JSON value appearing in the written cache record: each of its keys
maps to a string or to `null`. -/
inductive JVal where
  | null
  | str (s : String)
deriving DecidableEq, Repr

/-- Serialization of an optional string field: `none` becomes an explicit
JSON `null`, never a missing key. -/
def toJVal : Option String → JVal
  | none => .null
  | some s => .str s

/-- The key/value pairs `writeCache` serializes (`JSON.stringify` emits
`null` for `null`-valued keys, so every key below appears in the file). -/
def writeCacheEntries (c : Cache) : List (String × JVal) :=
  [("etag", toJVal c.etag),
   ("lastModified", toJVal c.lastModified),
   ("expires", toJVal c.expires),
   ("age", toJVal c.age),
   ("contentLength", toJVal c.contentLength),
   ("checkedAt", toJVal c.checkedAt)]

/-- The record written on a not-modified outcome:
`{ ...cache, ...dl.headers, checkedAt: nowIso() }`. JS spread semantics:
`dl.headers` (a `pickHeaders` result) carries all five validator keys, each
possibly `null`, and a later spread overwrites earlier keys — so every
validator field of `cache` is overwritten by the corresponding field of the
response's picked headers, `null` included. -/
def persistedNotModified (cache : Cache) (h : PickedHeaders) (now : String) : Cache :=
  { etag := h.etag
    lastModified := h.lastModified
    expires := h.expires
    age := h.age
    contentLength := h.contentLength
    checkedAt := some now }
  -- `cache`'s own fields are all shadowed by the later spreads.

/-- The record written on a modified (downloaded) outcome:
`{ ...dl.headers, checkedAt: nowIso() }` — the previous cache is not
consulted. -/
def persistedModified (h : PickedHeaders) (now : String) : Cache :=
  { etag := h.etag
    lastModified := h.lastModified
    expires := h.expires
    age := h.age
    contentLength := h.contentLength
    checkedAt := some now }

/-! ## Token client -/

/-- The JSON body of a token-endpoint response, as far as the script reads
it (`error_description`, `error`, `access_token`, `refresh_token`,
`expires_in`, `token_type`). -/
structure TokenJson where
  error_description : Option String
  error : Option String
  access_token : Option String
  refresh_token : Option String
  expires_in : Option Int
  token_type : Option String
deriving DecidableEq

/-- A token-endpoint HTTP response: status, raw body text, and the
best-effort `JSON.parse` of that text (`none` when parsing throws). -/
structure TokenResponse where
  status : Nat
  body : String
  json : Option TokenJson
deriving DecidableEq

/-- The token set the script keeps: `postToken`'s successful return value. -/
structure TokenSet where
  access_token : String
  refresh_token : Option String
  expires_in : Option Int
  token_type : String
deriving DecidableEq

/-- The failure message core of `postToken` on a non-2xx response:
`json?.error_description || json?.error || text || "HTTP <status>"`. -/
def tokenFailCore (r : TokenResponse) : String :=
  jsOrS ((r.json.bind TokenJson.error_description).getD "")
    (jsOrS ((r.json.bind TokenJson.error).getD "")
      (jsOrS r.body ("HTTP " ++ toString r.status)))

/-- `postToken(form)` of the source, as a function of the endpoint's
response: throws (returns `.error`) on a non-2xx status with the message
`Token request failed (<status>): <core>`; throws when the parsed body has
no truthy `access_token`; otherwise returns the token set, with
`refresh_token: json.refresh_token || null`,
`expires_in: json.expires_in ?? null` and
`token_type: json.token_type || "bearer"`. -/
def postToken (r : TokenResponse) : Except String TokenSet :=
  if respOk r.status = false then
    .error ("Token request failed (" ++ toString r.status ++ "): " ++ tokenFailCore r)
  else if jsTruthyS (r.json.bind TokenJson.access_token) = false then
    .error "Token response missing access_token"
  else
    match r.json with
    | none => .error "Token response missing access_token"
    | some j =>
      .ok { access_token := (j.access_token).getD ""
            refresh_token := orNull j.refresh_token
            expires_in := j.expires_in
            token_type := jsOrS ((j.token_type).getD "") "bearer" }

/-! ## Conditional fetch negotiator -/

/-- A resource-endpoint HTTP response: status, headers, and body length in
bytes (the body itself is only ever streamed to disk). -/
structure HttpResponse where
  status : Nat
  headers : RawHeaders
  bodyLen : Nat
deriving DecidableEq

/-- The value `downloadGtfs` resolves with:
`{ ok, status, notModified, headers? }`. -/
structure DlOutcome where
  ok : Bool
  status : Nat
  notModified : Bool
  headers : Option PickedHeaders
deriving DecidableEq, Repr

/-- The `{ ok: false, status: 401, notModified: false }` early return of
`downloadGtfs`. -/
def unauthorizedOutcome : DlOutcome :=
  { ok := false, status := 401, notModified := false, headers := none }

/-- The errors `downloadGtfs` throws: a failed HEAD probe or a failed GET,
each carrying the upstream status code. -/
inductive UpstreamFailure where
  | headFailed (status : Nat)
  | getFailed (status : Nat)
deriving DecidableEq

deriving instance DecidableEq for Except

/-- One run of `downloadGtfs`: its resolved value or thrown error, whether
the GET was issued, whether the destination file was (over)written, and how
many bytes were written to it. -/
structure DlRun where
  result : Except UpstreamFailure DlOutcome
  getIssued : Bool
  wroteFile : Bool
  bytesWritten : Nat
deriving DecidableEq

/-- The GET stage of `downloadGtfs` (the code after the HEAD block): 401 →
unauthorized; 304 → not modified with this response's picked headers;
other non-2xx → throw; 2xx → stream the body to the destination file
(`downloadToFileWithProgress`) and return the modified outcome. -/
def getPhase (get : HttpResponse) : DlRun :=
  if get.status = 401 then
    { result := .ok unauthorizedOutcome, getIssued := true, wroteFile := false, bytesWritten := 0 }
  else if get.status = 304 then
    { result := .ok { ok := true, status := 304, notModified := true,
                      headers := some (pickHeaders get.headers) }
      getIssued := true, wroteFile := false, bytesWritten := 0 }
  else if respOk get.status = false then
    { result := .error (.getFailed get.status), getIssued := true, wroteFile := false, bytesWritten := 0 }
  else
    { result := .ok { ok := true, status := get.status, notModified := false,
                      headers := some (pickHeaders get.headers) }
      getIssued := true, wroteFile := true, bytesWritten := get.bodyLen }

/-- `downloadGtfs(accessToken, conditionalHeaders, cache)` of the source, as
a function of the two server responses. In source order: a 401 probe
returns unauthorized at once (no GET); a 405/501 probe sets `head = null`
(probe unsupported) and proceeds to the GET; a 304 probe returns not
modified with the probe's picked headers (no GET); any other non-2xx probe
throws; a 2xx probe proceeds to the GET. The `conditionalHeaders` and
`cache` parameters are carried exactly as in the source (the body never
reads `cache`; the headers are sent with both requests, which the model
captures at the orchestrator's call sites). -/
def downloadGtfs (probe get : HttpResponse) (conditionalHeaders : CondHeaders)
    (cache : Cache) : DlRun :=
  if probe.status = 401 then
    { result := .ok unauthorizedOutcome, getIssued := false, wroteFile := false, bytesWritten := 0 }
  else if probe.status = 405 ∨ probe.status = 501 then
    getPhase get
  else if probe.status = 304 then
    { result := .ok { ok := true, status := 304, notModified := true,
                      headers := some (pickHeaders probe.headers) }
      getIssued := false, wroteFile := false, bytesWritten := 0 }
  else if respOk probe.status = false then
    { result := .error (.headFailed probe.status), getIssued := false, wroteFile := false, bytesWritten := 0 }
  else
    getPhase get

/-! ## Session orchestrator -/

/-- The observable actions of one run of `main()`, in order: a password
grant request, a refresh grant request, or a negotiation attempt (one
`downloadGtfs` call) carrying the conditional headers it sends. -/
inductive RunEvent where
  | passwordLogin
  | refreshCall
  | negotiate (h : CondHeaders)
deriving DecidableEq

/-- The ways `main()` rejects: an error thrown by `postToken`, an error
thrown by `downloadGtfs`, or the final
`Failed to download GTFS (last status: ...)` throw. All are caught only by
the top-level `main().catch`, which prints and exits non-zero. -/
inductive RunError where
  | auth (msg : String)
  | upstream (e : UpstreamFailure)
  | failed (lastStatus : Nat)
deriving DecidableEq

/-- The observable result of one run of `main()`: the ordered event trace,
the cache record written by `writeCache` (if any), and the run's
resolution. -/
structure RunResult where
  events : List RunEvent
  written : Option Cache
  outcome : Except RunError Unit
deriving DecidableEq

/-- The external world of one run: the cache file, the `JSON.parse` oracle,
the token endpoint's responses to the password grants (call 0 = initial
login, call 1 = re-login) and to the refresh grant, the resource endpoint's
responses per negotiation attempt (HEAD and GET), and the wall clock
(`nowIso()`). -/
structure Env where
  cacheFile : CacheFileState
  parse : String → JsParseResult
  passwordResp : Nat → TokenResponse
  refreshResp : TokenResponse
  attempts : Nat → HttpResponse × HttpResponse
  now : String

/-- The shared persist step of `main()`: inside
`if (dl.ok && dl.status !== 401)`, a not-modified outcome writes
`{ ...cache, ...dl.headers, checkedAt }` and a modified outcome writes
`{ ...dl.headers, checkedAt }`, each guarded by `if (dl.headers)`. -/
def persistOutcome (cache : Cache) (o : DlOutcome) (now : String) : Option Cache :=
  if o.notModified then
    o.headers.map (fun h => persistedNotModified cache h now)
  else
    o.headers.map (fun h => persistedModified h now)

/-- The re-login recovery block of `main()` (`if (dl.status === 401)` after
the refresh block): on a still-401 outcome, a fresh password grant, one
more `downloadGtfs`, persist on success, otherwise fall through to the
final `throw`. On a non-401 outcome the final `throw` is reached directly,
reporting the last observed status. `idx` is the index of the next
negotiation attempt; `ev` the trace so far. -/
def reauthPhase (env : Env) (cache : Cache) (condHdrs : CondHeaders) (idx : Nat)
    (o : DlOutcome) (ev : List RunEvent) : RunResult :=
  if o.status = 401 then
    match postToken (env.passwordResp 1) with
    | .error m => { events := ev ++ [.passwordLogin], written := none, outcome := .error (.auth m) }
    | .ok _ =>
      let a := env.attempts idx
      let dl := downloadGtfs a.1 a.2 condHdrs cache
      let ev2 := ev ++ [.passwordLogin, .negotiate condHdrs]
      match dl.result with
      | .error e => { events := ev2, written := none, outcome := .error (.upstream e) }
      | .ok o3 =>
        if o3.ok = true ∧ o3.status ≠ 401 then
          { events := ev2, written := persistOutcome cache o3 env.now, outcome := .ok () }
        else
          { events := ev2, written := none, outcome := .error (.failed o3.status) }
  else
    { events := ev, written := none, outcome := .error (.failed o.status) }

/-- `main()` of the source: load the cache, build the conditional headers
once, log in with the password grant, negotiate; on a non-401 outcome
persist and return; on a 401 with a truthy refresh token, refresh and
negotiate again with the same conditional headers; on a still-401 outcome,
re-login and negotiate a third time (`reauthPhase`); a third 401 (or an
unhandled outcome) throws `Failed to download GTFS (last status: ...)`.
Errors thrown by `postToken` or `downloadGtfs` propagate uncaught. -/
def runMain (env : Env) : RunResult :=
  let cache := readCache env.parse env.cacheFile
  let condHdrs := buildConditionalHeaders cache
  match postToken (env.passwordResp 0) with
  | .error m => { events := [.passwordLogin], written := none, outcome := .error (.auth m) }
  | .ok tok =>
    let a := env.attempts 0
    let dl := downloadGtfs a.1 a.2 condHdrs cache
    let ev := [RunEvent.passwordLogin, .negotiate condHdrs]
    match dl.result with
    | .error e => { events := ev, written := none, outcome := .error (.upstream e) }
    | .ok o =>
      if o.ok = true ∧ o.status ≠ 401 then
        { events := ev, written := persistOutcome cache o env.now, outcome := .ok () }
      else if o.status = 401 ∧ jsTruthyS tok.refresh_token = true then
        match postToken env.refreshResp with
        | .error m => { events := ev ++ [.refreshCall], written := none, outcome := .error (.auth m) }
        | .ok _ =>
          let a1 := env.attempts 1
          let dl2 := downloadGtfs a1.1 a1.2 condHdrs cache
          let ev2 := ev ++ [.refreshCall, .negotiate condHdrs]
          match dl2.result with
          | .error e => { events := ev2, written := none, outcome := .error (.upstream e) }
          | .ok o2 =>
            if o2.ok = true ∧ o2.status ≠ 401 then
              { events := ev2, written := persistOutcome cache o2 env.now, outcome := .ok () }
            else
              reauthPhase env cache condHdrs 2 o2 ev2
      else
        reauthPhase env cache condHdrs 1 o ev

/-! ## String containment (for error-message properties) -/

/-- `listContains hay needle`: `needle` occurs as a contiguous run inside
`hay`. -/
def listContains : List Char → List Char → Bool
  | hay, needle =>
    match hay with
    | [] => needle.isEmpty
    | _ :: t => needle.isPrefixOf hay || listContains t needle

/-- `containsStr hay needle`: the string `needle` occurs as a substring of
`hay`. -/
def containsStr (hay needle : String) : Bool :=
  listContains hay.data needle.data

/-! ## Concrete inputs used by witnesses and counterexamples -/

/-- A response with none of the five cache-relevant headers set. -/
def emptyRaw : RawHeaders := ⟨none, none, none, none, none⟩

/-- Headers carrying only `Age: 60`. -/
def raw60 : RawHeaders := ⟨none, none, none, some "60", none⟩

/-- Headers carrying only `ETag: xyz`. -/
def rawXyz : RawHeaders := ⟨some "xyz", none, none, none, none⟩

/-- A bare 401 response. -/
def resp401 : HttpResponse := ⟨401, emptyRaw, 0⟩

/-- A 200 response with an ETag and a 1000-byte body. -/
def resp200 : HttpResponse := ⟨200, rawXyz, 1000⟩

/-- A successful token-endpoint response granting access token `A` and
refresh token `R`. -/
def tokenOkResp : TokenResponse :=
  ⟨200, "", some ⟨none, none, some "A", some "R", none, none⟩⟩

/-- A rejected token-endpoint response: HTTP 400 with unparseable body
`nope`. -/
def badTokResp : TokenResponse := ⟨400, "nope", none⟩

/-- A cache holding only `etag: "abc"`. -/
def cacheAbc : Cache := ⟨some "abc", none, none, none, none, none⟩

/-- A cache holding only `lastModified: "Mon"`. -/
def cacheMon : Cache := ⟨none, some "Mon", none, none, none, none⟩

/-- Run environment: cache `{etag: "abc"}`, login succeeds, and the HEAD
probe answers 304 carrying only an `Age: 60` header. -/
def envCacheAbc304 : Env :=
  { cacheFile := .content "Y", parse := fun _ => .value cacheAbc,
    passwordResp := fun _ => tokenOkResp, refreshResp := tokenOkResp,
    attempts := fun _ => (⟨304, raw60, 0⟩, resp401), now := "T0" }

/-- Run environment: cache `{lastModified: "Mon"}`, login succeeds, and the
server answers 200 with only an `ETag: xyz` header and a 1000-byte body. -/
def envFreshDownload : Env :=
  { cacheFile := .content "Z", parse := fun _ => .value cacheMon,
    passwordResp := fun _ => tokenOkResp, refreshResp := tokenOkResp,
    attempts := fun _ => (resp200, resp200), now := "T0" }

/-- Run environment: all token grants succeed (with a refresh token
present), and every negotiation attempt is answered 401. -/
def envAll401 : Env :=
  { cacheFile := .absent, parse := fun _ => .throws,
    passwordResp := fun _ => tokenOkResp, refreshResp := tokenOkResp,
    attempts := fun _ => (resp401, resp401), now := "T0" }

/-- Run environment: the first login succeeds with a refresh token, the
first negotiation is answered 401, and the refresh grant itself is
rejected with HTTP 400. -/
def envRefreshRejected : Env :=
  { cacheFile := .absent, parse := fun _ => .throws,
    passwordResp := fun _ => tokenOkResp, refreshResp := badTokResp,
    attempts := fun _ => (resp401, resp401), now := "T0" }

/-- A rejected token response whose JSON body has an `error` code but no
`error_description`: HTTP 400 with body `{"error":"invalid_grant"}`. -/
def tokRespErrCode : TokenResponse :=
  ⟨400, "\x7b\"error\":\"invalid_grant\"\x7d",
   some ⟨none, some "invalid_grant", none, none, none, none⟩⟩

/-- A rejected token response carrying a server-provided
`error_description`. -/
def tokRespDesc : TokenResponse :=
  ⟨400, "ignored-body",
   some ⟨some "Invalid user credentials", none, none, none, none, none⟩⟩

theorem listContains_self (l : List Char) : listContains l l = true := by
  cases l with
  | nil => rfl
  | cons c t =>
    unfold listContains
    simp [List.isPrefixOf_iff_prefix]

theorem listContains_cons_of (c : Char) (t needle : List Char)
    (h : listContains t needle = true) : listContains (c :: t) needle = true := by
  unfold listContains
  simp [h]

theorem listContains_append_left (a b : List Char) :
    listContains (a ++ b) b = true := by
  induction a with
  | nil => simpa using listContains_self b
  | cons c t ih => simpa using listContains_cons_of c (t ++ b) b ih

theorem containsStr_append_right (a b : String) :
    containsStr (a ++ b) b = true := by
  unfold containsStr
  rw [String.data_append]
  exact listContains_append_left a.data b.data

theorem jsOrS_truthy (a b : String) (h : a ≠ "") : jsOrS a b = a := by
  simp [jsOrS, h]

theorem jsOrS_falsy (a b : String) (h : a = "") : jsOrS a b = b := by
  simp [jsOrS, h]

theorem jsTruthyS_true_iff (o : Option String) :
    jsTruthyS o = true ↔ o.getD "" ≠ "" := by
  cases o <;> simp [jsTruthyS]

theorem jsTruthyS_false_iff (o : Option String) :
    jsTruthyS o = false ↔ o.getD "" = "" := by
  cases o <;> simp [jsTruthyS]

/-! ## Claim C1 -/

/-- C1 (code bug): the claim says a NotModified persist is a field-wise
merge in which a validator the 304 response did not repeat (here the etag)
keeps its cached value. The code disagrees: `pickHeaders` emits an explicit
`null` for every header the response lacks, and in
`{ ...cache, ...dl.headers, checkedAt }` those nulls overwrite the cached
values, so the `...cache` spread is dead. Concretely: with cache
`{etag: "abc"}` and a 304 carrying only `Age: 60`, the run persists
`etag: null` and `age: "60"` — the cached etag `"abc"` is lost, contrary to
the claim (and to the merge the spread was evidently meant to provide). -/
theorem notModified_merge_drops_unrepeated_etag :
    (readCache envCacheAbc304.parse envCacheAbc304.cacheFile).etag = some "abc"
  ∧ runMain envCacheAbc304 =
      { events := [.passwordLogin, .negotiate ⟨some "abc", none⟩],
        written := some ⟨none, none, none, some "60", none, some "T0"⟩,
        outcome := .ok () } :=
  ⟨rfl, rfl⟩

/-! ## Claim C2 -/

/-- C2 counterexample: the claim says that on a Modified outcome a
validator field the 200 response left unspecified keeps its prior cached
value. With cache `{lastModified: "Mon"}` and a 200 response carrying only
`ETag: xyz`, the persisted record has `lastModified: null`, not `"Mon"`:
the code writes `{ ...dl.headers, checkedAt }` without consulting the
cache. -/
theorem modified_persist_drops_prior_lastModified :
    (readCache envFreshDownload.parse envFreshDownload.cacheFile).lastModified = some "Mon"
  ∧ runMain envFreshDownload =
      { events := [.passwordLogin, .negotiate ⟨none, some "Mon"⟩],
        written := some ⟨some "xyz", none, none, none, none, some "T0"⟩,
        outcome := .ok () } :=
  ⟨rfl, by decide⟩

/-- C2 (amended): on a Modified outcome that completes streaming, the
orchestrator persists exactly the validators picked from the 200 response
together with a fresh `checkedAt`; validator fields the response left
unspecified are written as explicit nulls — the prior cached values are
discarded, not preserved (the persisted record below does not depend on
the loaded cache). -/
theorem modified_persist_is_response_only (env : Env) (tok : TokenSet)
    (o : DlOutcome) (hp : PickedHeaders)
    (h0 : postToken (env.passwordResp 0) = .ok tok)
    (hdl : (downloadGtfs (env.attempts 0).1 (env.attempts 0).2
        (buildConditionalHeaders (readCache env.parse env.cacheFile))
        (readCache env.parse env.cacheFile)).result = .ok o)
    (hok : o.ok = true) (hnm : o.notModified = false)
    (hh : o.headers = some hp) (h401 : o.status ≠ 401) :
    runMain env =
      { events := [.passwordLogin,
          .negotiate (buildConditionalHeaders (readCache env.parse env.cacheFile))],
        written := some
          { etag := hp.etag, lastModified := hp.lastModified,
            expires := hp.expires, age := hp.age,
            contentLength := hp.contentLength, checkedAt := some env.now },
        outcome := .ok () } := by
  simp only [runMain, h0, hdl, hok, h401, persistOutcome, hnm, hh,
    persistedModified, if_true, if_pos, and_self, ne_eq, not_false_iff]
  simp [hok, h401, hnm, persistOutcome, hh, persistedModified]

/-- C2 witness: the amended theorem evaluated on the concrete fresh
download environment. -/
theorem modified_persist_is_response_only_witness :
    (runMain envFreshDownload).written =
      some ⟨some "xyz", none, none, none, none, some "T0"⟩ := by
  rw [modified_persist_is_response_only envFreshDownload
    ⟨"A", some "R", none, "bearer"⟩
    ⟨true, 200, false, some ⟨some "xyz", none, none, none, none⟩⟩
    ⟨some "xyz", none, none, none, none⟩
    rfl rfl rfl rfl rfl (by decide)]
  rfl

/-! ## Claim C3 -/

/-- C3: when the initial login grants a refresh token, every negotiation
attempt comes back 401, and both recovery grants succeed, the run performs
exactly three negotiation attempts — initial, post-refresh, post-re-login,
in that order, with the single refresh call strictly before the single
re-login call — and then rejects with
`Failed to download GTFS (last status: 401)`, reporting the last observed
status. -/
theorem persistent_401_exactly_three_attempts (env : Env) (tok t2 t3 : TokenSet)
    (h0 : postToken (env.passwordResp 0) = .ok tok)
    (hrt : jsTruthyS tok.refresh_token = true)
    (hr : postToken env.refreshResp = .ok t2)
    (h1 : postToken (env.passwordResp 1) = .ok t3)
    (ha0 : (downloadGtfs (env.attempts 0).1 (env.attempts 0).2
        (buildConditionalHeaders (readCache env.parse env.cacheFile))
        (readCache env.parse env.cacheFile)).result = .ok unauthorizedOutcome)
    (ha1 : (downloadGtfs (env.attempts 1).1 (env.attempts 1).2
        (buildConditionalHeaders (readCache env.parse env.cacheFile))
        (readCache env.parse env.cacheFile)).result = .ok unauthorizedOutcome)
    (ha2 : (downloadGtfs (env.attempts 2).1 (env.attempts 2).2
        (buildConditionalHeaders (readCache env.parse env.cacheFile))
        (readCache env.parse env.cacheFile)).result = .ok unauthorizedOutcome) :
    runMain env =
      { events :=
          [.passwordLogin,
           .negotiate (buildConditionalHeaders (readCache env.parse env.cacheFile)),
           .refreshCall,
           .negotiate (buildConditionalHeaders (readCache env.parse env.cacheFile)),
           .passwordLogin,
           .negotiate (buildConditionalHeaders (readCache env.parse env.cacheFile))],
        written := none,
        outcome := .error (.failed 401) } := by
  simp [runMain, reauthPhase, h0, hrt, hr, h1, ha0, ha1, ha2, unauthorizedOutcome]

/-- C3 witness: the theorem evaluated on the concrete all-401
environment. -/
theorem persistent_401_exactly_three_attempts_witness :
    runMain envAll401 =
      { events :=
          [.passwordLogin, .negotiate ⟨none, none⟩, .refreshCall,
           .negotiate ⟨none, none⟩, .passwordLogin, .negotiate ⟨none, none⟩],
        written := none,
        outcome := .error (.failed 401) } :=
  persistent_401_exactly_three_attempts envAll401
    ⟨"A", some "R", none, "bearer"⟩ ⟨"A", some "R", none, "bearer"⟩
    ⟨"A", some "R", none, "bearer"⟩ rfl rfl rfl rfl rfl rfl rfl

/-! ## Claim C4 -/

/-- C4 counterexample: the claim says an `AuthError` thrown by the refresh
grant is caught by the orchestrator, counted against the retry budget, and
that the re-login path is still attempted before the run fails. On the
concrete environment where the first negotiation is 401 and the refresh
grant is rejected with HTTP 400, the run's trace ends at the refresh call:
no re-login and no further negotiation happens, and the run rejects with
the propagated token error itself (not a `Failed ...` conversion) — the
code has no `try`/`catch` around `refreshAccessToken`, only the top-level
`main().catch` which prints and exits. -/
theorem refresh_auth_error_ends_run_cex :
    runMain envRefreshRejected =
      { events := [.passwordLogin, .negotiate ⟨none, none⟩, .refreshCall],
        written := none,
        outcome := .error (.auth "Token request failed (400): nope") } := by
  decide

/-- C4 (amended): an `AuthError` thrown by the refresh grant is NOT caught
by the orchestrator's retry logic: it propagates immediately to the
top-level handler and the run fails with that error after a single
negotiation attempt; the re-login recovery path is never reached. -/
theorem refresh_auth_error_propagates (env : Env) (tok : TokenSet) (m : String)
    (h0 : postToken (env.passwordResp 0) = .ok tok)
    (hrt : jsTruthyS tok.refresh_token = true)
    (ha0 : (downloadGtfs (env.attempts 0).1 (env.attempts 0).2
        (buildConditionalHeaders (readCache env.parse env.cacheFile))
        (readCache env.parse env.cacheFile)).result = .ok unauthorizedOutcome)
    (hre : postToken env.refreshResp = .error m) :
    runMain env =
      { events :=
          [.passwordLogin,
           .negotiate (buildConditionalHeaders (readCache env.parse env.cacheFile)),
           .refreshCall],
        written := none,
        outcome := .error (.auth m) } := by
  simp [runMain, h0, hrt, ha0, hre, unauthorizedOutcome]

/-- C4 witness: the amended theorem evaluated on the concrete
refresh-rejected environment. -/
theorem refresh_auth_error_propagates_witness :
    (runMain envRefreshRejected).outcome =
      .error (.auth "Token request failed (400): nope") := by
  rw [refresh_auth_error_propagates envRefreshRejected
    ⟨"A", some "R", none, "bearer"⟩ "Token request failed (400): nope"
    rfl rfl rfl rfl]

/-! ## Claim C5 -/

/-- C5: interpretation of the HEAD probe in `downloadGtfs`, in source
order. A 401 probe returns Unauthorized at once and no GET is issued; a
304 probe returns NotModified carrying the probe's picked validators and
no GET is issued; a 405 or 501 probe is treated as "probe unsupported" and
the negotiation proceeds directly to the GET phase with no short-circuit
from the probe; any other non-success probe status throws the upstream
HEAD failure; and a successful (2xx) probe always continues to the
authoritative GET. -/
theorem head_probe_interpretation (probe get : HttpResponse)
    (ch : CondHeaders) (c : Cache) :
    (probe.status = 401 →
      downloadGtfs probe get ch c =
        { result := .ok unauthorizedOutcome, getIssued := false,
          wroteFile := false, bytesWritten := 0 })
  ∧ (probe.status = 304 →
      downloadGtfs probe get ch c =
        { result := .ok { ok := true, status := 304, notModified := true,
                          headers := some (pickHeaders probe.headers) },
          getIssued := false, wroteFile := false, bytesWritten := 0 })
  ∧ (probe.status = 405 ∨ probe.status = 501 →
      downloadGtfs probe get ch c = getPhase get)
  ∧ (probe.status ≠ 401 → probe.status ≠ 304 → probe.status ≠ 405 →
     probe.status ≠ 501 → respOk probe.status = false →
      downloadGtfs probe get ch c =
        { result := .error (.headFailed probe.status), getIssued := false,
          wroteFile := false, bytesWritten := 0 })
  ∧ (respOk probe.status = true →
      downloadGtfs probe get ch c = getPhase get ∧
        (getPhase get).getIssued = true) := by
  refine ⟨?_, ?_, ?_, ?_, ?_⟩
  · intro h; simp [downloadGtfs, h]
  · intro h; simp [downloadGtfs, h]
  · rintro (h | h) <;> simp [downloadGtfs, h]
  · intro h1 h2 h3 h4 h5
    simp [downloadGtfs, h1, h2, h3, h4, h5]
  · intro h
    have hb : 200 ≤ probe.status ∧ probe.status ≤ 299 := by
      simpa [respOk, Bool.and_eq_true] using h
    have n1 : probe.status ≠ 401 := by omega
    have n2 : probe.status ≠ 304 := by omega
    have n3 : probe.status ≠ 405 := by omega
    have n4 : probe.status ≠ 501 := by omega
    refine ⟨?_, ?_⟩
    · simp [downloadGtfs, n1, n2, n3, n4, h]
    · unfold getPhase
      split_ifs <;> rfl

/-- C5 witness: a 304 probe short-circuits (no GET, probe validators
returned), and a 405 probe falls through to the GET phase. -/
theorem head_probe_interpretation_witness :
    downloadGtfs ⟨304, raw60, 0⟩ resp401 ⟨none, none⟩ emptyCache =
      { result := .ok { ok := true, status := 304, notModified := true,
                        headers := some ⟨none, none, none, some "60", none⟩ },
        getIssued := false, wroteFile := false, bytesWritten := 0 }
  ∧ downloadGtfs ⟨405, emptyRaw, 0⟩ resp200 ⟨none, none⟩ emptyCache =
      getPhase resp200 :=
  ⟨(head_probe_interpretation ⟨304, raw60, 0⟩ resp401 ⟨none, none⟩ emptyCache).2.1 rfl,
   (head_probe_interpretation ⟨405, emptyRaw, 0⟩ resp200 ⟨none, none⟩ emptyCache).2.2.1 (Or.inl rfl)⟩

/-! ## Claim C6 -/

/-- C6: a not-modified negotiation writes nothing — whenever `downloadGtfs`
resolves with a NotModified outcome, the destination file is untouched and
zero bytes are written to it; conversely the destination file is
(over)written only when the run resolves with a Modified outcome (a
successful non-304, non-401 response); and when the probe succeeds and the
server answers the conditional GET with 304 (echoing the cached validators
as still current) the run resolves NotModified with that response's picked
validators and writes nothing. -/
theorem no_write_on_not_modified (probe get : HttpResponse)
    (ch : CondHeaders) (c : Cache) :
    (∀ o, (downloadGtfs probe get ch c).result = .ok o → o.notModified = true →
      (downloadGtfs probe get ch c).wroteFile = false ∧
      (downloadGtfs probe get ch c).bytesWritten = 0)
  ∧ ((downloadGtfs probe get ch c).wroteFile = true →
      ∃ o, (downloadGtfs probe get ch c).result = .ok o ∧ o.ok = true ∧
        o.notModified = false ∧ o.status ≠ 401 ∧ o.status ≠ 304)
  ∧ (respOk probe.status = true → get.status = 304 →
      downloadGtfs probe get ch c =
        { result := .ok { ok := true, status := 304, notModified := true,
                          headers := some (pickHeaders get.headers) },
          getIssued := true, wroteFile := false, bytesWritten := 0 }) := by
  unfold downloadGtfs getPhase
  split_ifs with h1 h2 h3 h4 h5 h6 h7 h8 h9 h10 <;>
    constructor <;>
    try constructor
  all_goals
    simp_all [unauthorizedOutcome, respOk]

/-- C6 witness: with a cached etag echoed back as still current (probe
200, conditional GET 304), the negotiation resolves NotModified and writes
nothing to the destination. -/
theorem no_write_on_not_modified_witness :
    downloadGtfs ⟨200, rawXyz, 0⟩ ⟨304, rawXyz, 0⟩
        ⟨some "xyz", none⟩ cacheAbc =
      { result := .ok { ok := true, status := 304, notModified := true,
                        headers := some ⟨some "xyz", none, none, none, none⟩ },
        getIssued := true, wroteFile := false, bytesWritten := 0 } :=
  (no_write_on_not_modified ⟨200, rawXyz, 0⟩ ⟨304, rawXyz, 0⟩
    ⟨some "xyz", none⟩ cacheAbc).2.2 rfl rfl

/-! ## Claim C7 -/

/-- C7: `readCache` never fails the run — for an absent cache file, an
unreadable one, one whose content makes `JSON.parse` throw, and one whose
content parses to a falsy value, it returns the empty record. (In the
model `readCache` is a total function into `Cache`: no error outcome even
exists.) -/
theorem cache_load_never_fatal (parse : String → JsParseResult) (s : String) :
    readCache parse .absent = emptyCache
  ∧ readCache parse .unreadable = emptyCache
  ∧ (parse s = .throws → readCache parse (.content s) = emptyCache)
  ∧ (parse s = .falsy → readCache parse (.content s) = emptyCache) := by
  refine ⟨rfl, rfl, ?_, ?_⟩ <;> intro h <;> simp [readCache, h]

/-- C7 witness: a malformed cache file loads as the empty record. -/
theorem cache_load_never_fatal_witness :
    readCache (fun _ => .throws) (.content "not json at all") = emptyCache :=
  (cache_load_never_fatal (fun _ => .throws) "not json at all").2.2.1 rfl

/-! ## Claim C8 -/

/-- C8 counterexample: the claim says that on a non-2xx token response the
error message contains the server-provided error description when present,
otherwise the raw response body, otherwise the HTTP status. On the
concrete rejected response whose JSON body is `{"error":"invalid_grant"}`
— no `error_description`, non-empty raw body — the thrown message is
`Token request failed (400): invalid_grant`: the code falls back to the
JSON `error` code, and the raw response body does not occur in the
message, contrary to the claimed fallback chain. -/
theorem token_error_message_skips_raw_body :
    tokRespErrCode.json.bind TokenJson.error_description = none
  ∧ tokRespErrCode.body ≠ ""
  ∧ postToken tokRespErrCode =
      .error "Token request failed (400): invalid_grant"
  ∧ containsStr "Token request failed (400): invalid_grant"
      tokRespErrCode.body = false := by
  refine ⟨rfl, by decide, rfl, by decide⟩

/-- C8 (amended): `postToken` (used for both the password grant and the
refresh grant) succeeds exactly when the response is 2xx and its parsed
body has a truthy `access_token`; on a non-2xx response the thrown message
contains the server-provided `error_description` when present, otherwise
the server-provided `error` code when present, otherwise the raw response
body when non-empty, otherwise the HTTP status. -/
theorem token_failure_semantics (r : TokenResponse) :
    ((∃ t, postToken r = .ok t) ↔
      (respOk r.status = true ∧
       jsTruthyS (r.json.bind TokenJson.access_token) = true))
  ∧ (∀ m, postToken r = .error m → respOk r.status = false →
      (jsTruthyS (r.json.bind TokenJson.error_description) = true →
        containsStr m ((r.json.bind TokenJson.error_description).getD "") = true)
    ∧ (jsTruthyS (r.json.bind TokenJson.error_description) = false →
       jsTruthyS (r.json.bind TokenJson.error) = true →
        containsStr m ((r.json.bind TokenJson.error).getD "") = true)
    ∧ (jsTruthyS (r.json.bind TokenJson.error_description) = false →
       jsTruthyS (r.json.bind TokenJson.error) = false → r.body ≠ "" →
        containsStr m r.body = true)
    ∧ (jsTruthyS (r.json.bind TokenJson.error_description) = false →
       jsTruthyS (r.json.bind TokenJson.error) = false → r.body = "" →
        containsStr m (toString r.status) = true)) := by
  constructor
  · constructor
    · rintro ⟨t, ht⟩
      unfold postToken at ht
      by_cases hok : respOk r.status = false
      · rw [if_pos hok] at ht; exact Except.noConfusion ht
      · rw [if_neg hok] at ht
        by_cases hat : jsTruthyS (r.json.bind TokenJson.access_token) = false
        · rw [if_pos hat] at ht; exact Except.noConfusion ht
        · exact ⟨by simpa using hok, by simpa using hat⟩
    · rintro ⟨hok, hat⟩
      unfold postToken
      rw [hok, hat]
      cases hj : r.json with
      | none => rw [hj] at hat; simp [jsTruthyS] at hat
      | some j => exact ⟨_, rfl⟩
  · intro m hm hbad
    unfold postToken at hm
    rw [hbad] at hm
    simp only [reduceIte] at hm
    injection hm with hmsg
    refine ⟨?_, ?_, ?_, ?_⟩
    · intro hd
      rw [jsTruthyS_true_iff] at hd
      rw [← hmsg]
      unfold tokenFailCore
      rw [jsOrS_truthy _ _ hd]
      exact containsStr_append_right _ _
    · intro hd he
      rw [jsTruthyS_false_iff] at hd
      rw [jsTruthyS_true_iff] at he
      rw [← hmsg]
      unfold tokenFailCore
      rw [jsOrS_falsy _ _ hd, jsOrS_truthy _ _ he]
      exact containsStr_append_right _ _
    · intro hd he hb
      rw [jsTruthyS_false_iff] at hd
      rw [jsTruthyS_false_iff] at he
      rw [← hmsg]
      unfold tokenFailCore
      rw [jsOrS_falsy _ _ hd, jsOrS_falsy _ _ he, jsOrS_truthy _ _ hb]
      exact containsStr_append_right _ _
    · intro hd he hb
      rw [jsTruthyS_false_iff] at hd
      rw [jsTruthyS_false_iff] at he
      rw [← hmsg]
      unfold tokenFailCore
      rw [jsOrS_falsy _ _ hd, jsOrS_falsy _ _ he, jsOrS_falsy _ _ hb,
        ← String.append_assoc]
      exact containsStr_append_right _ _

/-- C8 witness: on a rejected response carrying an `error_description`,
the thrown message contains that description. -/
theorem token_failure_semantics_witness :
    postToken tokRespDesc =
      .error "Token request failed (400): Invalid user credentials"
  ∧ containsStr "Token request failed (400): Invalid user credentials"
      "Invalid user credentials" = true :=
  ⟨rfl,
   ((token_failure_semantics tokRespDesc).2
     "Token request failed (400): Invalid user credentials" rfl rfl).1 rfl⟩

/-! ## Claim C9 -/

/-- C9: every cache record the program writes — the not-modified merge and
the modified record alike — serializes all five validator keys plus
`checkedAt`, in this order, with each value a string or an explicit JSON
`null` (`JVal` has no other constructors); a header the HTTP response did
not carry yields an explicit `null` under its key, never a missing key;
and `checkedAt` is the fresh timestamp. -/
theorem written_record_always_has_all_keys (raw : RawHeaders) (c : Cache) (t : String) :
    (writeCacheEntries (persistedNotModified c (pickHeaders raw) t)).map Prod.fst =
      ["etag", "lastModified", "expires", "age", "contentLength", "checkedAt"]
  ∧ writeCacheEntries (persistedModified (pickHeaders raw) t) =
      writeCacheEntries (persistedNotModified c (pickHeaders raw) t)
  ∧ ("checkedAt", JVal.str t) ∈
      writeCacheEntries (persistedNotModified c (pickHeaders raw) t)
  ∧ (raw.etag = none → ("etag", JVal.null) ∈
      writeCacheEntries (persistedNotModified c (pickHeaders raw) t))
  ∧ (raw.lastModified = none → ("lastModified", JVal.null) ∈
      writeCacheEntries (persistedNotModified c (pickHeaders raw) t))
  ∧ (raw.expires = none → ("expires", JVal.null) ∈
      writeCacheEntries (persistedNotModified c (pickHeaders raw) t))
  ∧ (raw.age = none → ("age", JVal.null) ∈
      writeCacheEntries (persistedNotModified c (pickHeaders raw) t))
  ∧ (raw.contentLength = none → ("contentLength", JVal.null) ∈
      writeCacheEntries (persistedNotModified c (pickHeaders raw) t)) := by
  refine ⟨rfl, rfl, by simp [writeCacheEntries, persistedNotModified, toJVal],
    ?_, ?_, ?_, ?_, ?_⟩ <;>
  · intro h
    simp [writeCacheEntries, persistedNotModified, pickHeaders, h, orNull, toJVal]

/-- C9 witness: a 304 carrying only `Age` serializes explicit nulls for
the four headers it did not carry. -/
theorem written_record_always_has_all_keys_witness :
    (writeCacheEntries (persistedNotModified cacheAbc (pickHeaders raw60) "T0")).map
        Prod.fst =
      ["etag", "lastModified", "expires", "age", "contentLength", "checkedAt"]
  ∧ ("etag", JVal.null) ∈
      writeCacheEntries (persistedNotModified cacheAbc (pickHeaders raw60) "T0") :=
  ⟨(written_record_always_has_all_keys raw60 cacheAbc "T0").1,
   (written_record_always_has_all_keys raw60 cacheAbc "T0").2.2.2.1 rfl⟩

/-! ## Claim C10 -/

theorem reauthPhase_events_mem (env : Env) (c : Cache) (ch : CondHeaders)
    (idx : Nat) (o : DlOutcome) (ev : List RunEvent) (e : RunEvent)
    (he : e ∈ (reauthPhase env c ch idx o ev).events) :
    e ∈ ev ∨ e = .passwordLogin ∨ e = .negotiate ch := by
  unfold reauthPhase at he
  by_cases h : o.status = 401
  · rw [if_pos h] at he
    cases hp : postToken (env.passwordResp 1) with
    | error m =>
      rw [hp] at he
      simp only [List.mem_append, List.mem_singleton] at he
      rcases he with he | he
      · exact Or.inl he
      · exact Or.inr (Or.inl he)
    | ok t =>
      rw [hp] at he
      simp only at he
      split at he <;>
      · first
        | (split at he <;>
            (simp only [List.mem_append, List.mem_cons,
              List.mem_singleton, List.not_mem_nil, or_false] at he
             rcases he with he | he | he
             · exact Or.inl he
             · exact Or.inr (Or.inl he)
             · exact Or.inr (Or.inr he)))
        | (simp only [List.mem_append, List.mem_cons,
            List.mem_singleton, List.not_mem_nil, or_false] at he
           rcases he with he | he | he
           · exact Or.inl he
           · exact Or.inr (Or.inl he)
           · exact Or.inr (Or.inr he))
  · rw [if_neg h] at he
    exact Or.inl he

/-- C10: the conditional request headers are a function of the cache loaded
at the start of the run alone — every negotiation attempt a run performs
(initial, post-refresh and post-re-login alike) carries exactly
`buildConditionalHeaders` of that initial cache; nothing observed mid-run
changes the headers of a later attempt. -/
theorem conditional_headers_fixed_per_run (env : Env) (h : CondHeaders)
    (hmem : RunEvent.negotiate h ∈ (runMain env).events) :
    h = buildConditionalHeaders (readCache env.parse env.cacheFile) := by
  unfold runMain at hmem
  cases hp : postToken (env.passwordResp 0) with
  | error m =>
    rw [hp] at hmem
    simp at hmem
  | ok tok =>
    rw [hp] at hmem
    simp only at hmem
    split at hmem
    · simp at hmem
      exact hmem
    · rename_i o _
      split at hmem
      · simp at hmem
        exact hmem
      · split at hmem
        · cases hr : postToken env.refreshResp with
          | error m =>
            rw [hr] at hmem
            simp at hmem
            exact hmem
          | ok t2 =>
            rw [hr] at hmem
            simp only at hmem
            split at hmem
            · simp at hmem
              exact hmem
            · split at hmem
              · simp at hmem
                exact hmem
              · rcases reauthPhase_events_mem _ _ _ _ _ _ _ hmem with hm | hm | hm
                · simp at hm
                  exact hm
                · exact absurd hm (by simp)
                · exact RunEvent.negotiate.inj hm
        · rcases reauthPhase_events_mem _ _ _ _ _ _ _ hmem with hm | hm | hm
          · simp at hm
            exact hm
          · exact absurd hm (by simp)
          · exact RunEvent.negotiate.inj hm

/-- C10 witness: in the concrete cached-etag run the only negotiation event
carries `If-None-Match: abc`, which is exactly the headers built from the
loaded cache. -/
theorem conditional_headers_fixed_per_run_witness :
    RunEvent.negotiate ⟨some "abc", none⟩ ∈ (runMain envCacheAbc304).events
  ∧ (⟨some "abc", none⟩ : CondHeaders) =
      buildConditionalHeaders (readCache envCacheAbc304.parse envCacheAbc304.cacheFile) :=
  ⟨by decide, conditional_headers_fixed_per_run envCacheAbc304 ⟨some "abc", none⟩ (by decide)⟩
